import Mathlib

/-!
# Verification of the forecasting core of `autoPredictionTGR`

Shallow embedding of `Desktop/Test_API/logic.py` (the forecasting module):
the Smart-Duration validator (`SmartPredictor.calculate_and_validate_duration`),
the residual anomaly detector (`SmartPredictor._detect_anomalies`), the
tournament selection step of `SmartPredictor.analyze_and_configure`, the
forecast assembly of `SmartPredictor.get_prediction_data`, and the
orchestrator `predict_from_file_content`.

Modelling conventions:
* Python floats are embedded as exact rationals `ℚ`; the guards and
  thresholds of the source are pure comparisons, so exact arithmetic is the
  intended reading.
* The numerical fitting routines (`statsmodels` SARIMAX/Holt-Winters,
  `adfuller`, `seasonal_decompose`, the optional deep-learning back ends)
  are external collaborators; their outcomes enter the embedding as an
  explicit `FitOracle` record.  A score of `Option ℚ` is `none` when the
  Python code would hold `float('inf')` (the fit failed / back end absent)
  and `some s` for a finite score `s`.
* Log lines (`self._log(...)`) are embedded as stable string tags: the tag
  identifies the call site and message, the interpolated numeric payloads
  are elided (they never influence control flow).
* A Python `dict` result is a structure whose optional keys are `Option`
  fields; `none` means the key is absent from the returned dictionary.
* `list.sort(key=k, reverse=True)` in CPython is a stable descending sort;
  a stable sort for a total preorder is unique, so it is embedded as a
  structurally recursive stable insertion sort `stableSortBy`.
-/

namespace AutoPredictionTGR

/-! ## Stable sorting (model of CPython `list.sort` / `sorted`) -/

/-- Insert `a` into `l`, placing it before the first element `b` with
`le a b = true`.  Used by `stableSortBy`. -/
def insertSorted (le : α → α → Bool) (a : α) : List α → List α
  | [] => [a]
  | b :: l => if le a b then a :: b :: l else b :: insertSorted le a l

/-- Stable insertion sort.  For a total preorder `le`, stable sorts are
unique, so this coincides with CPython's Timsort (`list.sort`/`sorted`). -/
def stableSortBy (le : α → α → Bool) : List α → List α
  | [] => []
  | a :: l => insertSorted le a (stableSortBy le l)

/-! ## Anomaly detector (`SmartPredictor._detect_anomalies`)

Source: `logic.py`, lines 1357–1502.  The detector receives the trained
model's residuals and fitted values; `residuals.std()` is a numeric value
computed by pandas, embedded here as the parameter `s`.  The month index
plays the role of the date key. -/

/-- Severity labels `"HIGH" | "MEDIUM" | "LOW"` of `_detect_anomalies`. -/
inductive Severity
  | high
  | medium
  | low
deriving DecidableEq, Repr

/-- `severity_order = {"HIGH": 0, "MEDIUM": 1, "LOW": 2}` (line 1495); the
`.get(x, 3)` default never fires because severity is one of the three. -/
def severityOrder : Severity → Nat
  | .high => 0
  | .medium => 1
  | .low => 2

/-- One emitted anomaly dictionary (lines 1474–1482).  The formatted
`description` string is represented by its data: the direction flag
(`residual > 0`, "superieure"/"inferieure") and the percentage deviation. -/
structure Anomaly where
  date : Nat
  actual_value : ℚ
  predicted_value : ℚ
  residual : ℚ
  std_deviations : ℚ
  severity : Severity
  above : Bool
  pct_deviation : ℚ
deriving DecidableEq, Repr

/-- Lexicographic `≤` on the Python sort key
`(severity_order.get(severity, 3), std_deviations)` (line 1496). -/
def anomalyKeyLe (x y : Anomaly) : Bool :=
  decide (severityOrder x.severity < severityOrder y.severity) ||
    (decide (severityOrder x.severity = severityOrder y.severity) &&
      decide (x.std_deviations ≤ y.std_deviations))

/-- `anomalies.sort(key=lambda x: (severity_order.get(...), x["std_deviations"]), reverse=True)`
(line 1496): a stable sort by the *descending* lexicographic key. -/
def sortAnomalies (l : List Anomaly) : List Anomaly :=
  stableSortBy (fun x y => anomalyKeyLe y x) l

/-- Body of the per-month loop of `_detect_anomalies` (lines 1443–1484) for a
month whose date is present in `fitted_values.index`: classify the residual
and emit a record iff `abs(residual)/s >= threshold_medium/s`.
`s` is `residuals.std()`; the thresholds are `2*s` and `3*s` (lines 1437–1438)
and the comparisons divide them back by `s` (lines 1454, 1457, 1465). -/
def anomalyAt (s : ℚ) (date : Nat) (actual predicted : ℚ) : Option Anomaly :=
  let residual := actual - predicted
  let abs_residual_std := |residual| / s
  let severity : Severity :=
    if abs_residual_std ≥ (3 * s) / s then .high
    else if abs_residual_std ≥ (2 * s) / s then .medium
    else .low
  if abs_residual_std ≥ (2 * s) / s then
    some
      { date := date
        actual_value := actual
        predicted_value := predicted
        residual := residual
        std_deviations := abs_residual_std
        severity := severity
        above := decide (residual > 0)
        pct_deviation := if predicted ≠ 0 then |residual| / predicted * 100 else 0 }
  else none

/-- `_detect_anomalies`: `actuals` is the `montant` column in date order and
`fitted i = some p` models `date in fitted_values.index` with fitted value
`p`.  Returns the emitted records after the final sort (line 1496).
If `s = 0` the guard at line 1430 returns the empty list. -/
def detect_anomalies (actuals : List ℚ) (fitted : List (Option ℚ)) (s : ℚ) :
    List Anomaly :=
  if s = 0 then []
  else
    sortAnomalies <|
      ((actuals.zip fitted).enum).filterMap fun p =>
        match p with
        | (i, (a, some pr)) => anomalyAt s i a pr
        | (_, (_, none)) => none

/-- Log lines appended by `_detect_anomalies` (tags; payloads elided).
The per-anomaly lines are appended in date order, before the sort. -/
def detectAnomaliesLogs (actuals : List ℚ) (fitted : List (Option ℚ)) (s : ℚ) :
    List String :=
  ["DETECTION D ANOMALIES (AI for Audit)",
   "Statistiques des residus :",
   "Moyenne :", "Ecart-type :"] ++
  (if s = 0 then ["Ecart-type = 0. Pas d anomalies detectables."]
   else
    (((actuals.zip fitted).enum).filterMap fun p =>
        match p with
        | (i, (a, some pr)) => (anomalyAt s i a pr).map fun _ => "anomalie ligne"
        | (_, (_, none)) => none) ++
    ["resume anomalies"])

/-! ## Smart Duration validator (`SmartPredictor.calculate_and_validate_duration`)

Source: `logic.py`, lines 790–957.  `self.df` is the cleaned monthly frame;
its `montant` column is the list `amounts`.  The caller request
`user_months` is `auto` (Python `None`), `num n` (any value whose `int(...)`
conversion yields `n`), or `invalid` (a value on which `int(...)` raises). -/

/-- The `user_months` argument. -/
inductive UserReq
  | auto
  | num (n : ℤ)
  | invalid
deriving DecidableEq, Repr

/-- `total_months = len(self.df)` (line 881). -/
def totalMonths (amounts : List ℚ) : ℕ := amounts.length

/-- `active_months = (self.df['montant'] > 0).sum()` (line 882). -/
def activeMonths (amounts : List ℚ) : ℕ :=
  amounts.countP fun a => decide (0 < a)

/-- `data_density = (active_months / total_months) * 100 if total_months > 0 else 0`
(line 883). -/
def dataDensity (amounts : List ℚ) : ℚ :=
  if 0 < totalMonths amounts then
    ((activeMonths amounts : ℚ) / (totalMonths amounts : ℚ)) * 100
  else 0

/-- `safe_duration = int(active_months / 3)` (line 895): true division then
truncation toward zero, which on a non-negative count is `Nat` division. -/
def rawSafeDuration (amounts : List ℚ) : ℤ :=
  Int.ofNat (activeMonths amounts / 3)

/-- `safe_duration = max(MIN_MONTHS, min(safe_duration, MAX_MONTHS))` with
`MIN_MONTHS = 3`, `MAX_MONTHS = 24` (lines 900–902). -/
def safeDuration (amounts : List ℚ) : ℤ :=
  max 3 (min (rawSafeDuration amounts) 24)

/-- Result of the duration validator: the returned month count, the
`self._last_duration_reason` tag (`none` when the attribute is not set,
as in the exception handler), and the `self._log` lines appended. -/
structure DurationResult where
  final : ℤ
  reason : Option String
  logs : List String
deriving DecidableEq, Repr

/-- The three header lines logged before the `try` block (lines 874–876). -/
def durationHeaderLogs : List String :=
  ["====", "ANALYSE DE LA DENSITE DES DONNEES (Smart Duration)", "===="]

/-- Sparsity warning line (line 890), logged whenever `data_density < 20`. -/
def sparsityWarningLog : String :=
  "ATTENTION : Donnees TRES SPARSE (< 20 pct) - Previsions peu fiables"

/-- Rejection line for a non-numeric `user_months` (line 926). -/
def invalidRequestLog : String :=
  "Valeur months non numerique : rejetee"

/-- Body of the `try` block of `calculate_and_validate_duration`
(lines 878–952), which never raises on a frame that has its `montant`
column.  Log tags follow the source's message order. -/
def durationCore (amounts : List ℚ) (user : UserReq) : DurationResult :=
  let total := totalMonths amounts
  let density := dataDensity amounts
  let raw := rawSafeDuration amounts
  let safe := safeDuration amounts
  let baseLogs : List String :=
    ["Periode couverte : N mois", "Mois ACTIFS (montant > 0) : N",
     "Densite : N pct"] ++
    (if density < 20 then [sparsityWarningLog] else []) ++
    ["Duree brute (active_months / 3) : N mois"] ++
    (if safe ≠ raw then ["Apres clamping [3, 24] : N mois"] else [])
  match user with
  | .auto =>
      { final := safe
        reason := some ("MODE AUTO" ++
          (if density < 20 then " - sparsity detected" else ""))
        logs := baseLogs ++
          ["MODE AUTO : Duree selectionnee = N mois",
           "(Utilisateur n a pas specifie)"] }
  | .invalid =>
      { final := safe
        reason := some "INVALID USER REQUEST"
        logs := baseLogs ++ [invalidRequestLog] }
  | .num n =>
      if n ≤ safe then
        { final := n
          reason := some "USER OVERRIDE (requested <= safe)"
          logs := baseLogs ++ ["APPROUVE : N mois (<= duree sure)"] }
      else if n ≤ 24 ∧ n ≤ (total : ℤ) then
        { final := n
          reason := some "USER OVERRIDE"
          logs := baseLogs ++
            ["APPROUVE (USER OVERRIDE) : N mois (dans limites et historique suffisant)"] }
      else
        { final := safe
          reason := some "USER REQUEST REDUCED"
          logs := baseLogs ++
            ["SECURITE STATISTIQUE - Duree reduite", "Demande : N mois",
             "Limite sure : N mois", "Raison : Donnees insuffisantes",
             "Decision : Utiliser safe mois"] }

/-- `calculate_and_validate_duration` with its `try/except` wrapper
(lines 954–957): `df = none` models a predictor state on which the body
raises (e.g. `self.df` without a `montant` column, so line 882 raises
`KeyError`); the handler logs two lines and returns the constant 12 without
setting `self._last_duration_reason`. -/
def calculate_and_validate_duration (df : Option (List ℚ)) (user : UserReq) :
    DurationResult :=
  match df with
  | some amounts =>
      let r := durationCore amounts user
      { r with logs := durationHeaderLogs ++ r.logs }
  | none =>
      { final := 12
        reason := none
        logs := durationHeaderLogs ++
          ["Erreur lors de calculate_and_validate_duration",
           "Utiliser duree par defaut : 12 mois"] }

/-- The 72-month series of the spec's sparse scenarios: months 1 and 51
active, everything else zero. -/
def sparse72 : List ℚ :=
  ((1 : ℚ) :: List.replicate 49 0) ++ ((1 : ℚ) :: List.replicate 21 0)

/-- The request bound enforced by the HTTP boundary
(`Query(None, ge=1, le=60)` in `main.py`, line 209). -/
def boundaryAccepted : UserReq → Prop
  | .num n => 1 ≤ n ∧ n ≤ 60
  | _ => True

instance : DecidablePred boundaryAccepted := fun u => by
  unfold boundaryAccepted
  cases u <;> infer_instance

/-! ## Tournament selector (`SmartPredictor.analyze_and_configure`)

Source: `logic.py`, lines 959–1180.  The numerical fitters
(`_calculer_aic`, `_fit_holtwinters`, `_fit_prophet`, …) call external
libraries; their outcomes are supplied by a `FitOracle`.  Each score field
is `none` when the Python value is `float('inf')` (the fitter failed or
its back end is unavailable) and `some s` for a finite score. -/

/-- Outcome of the final SARIMAX retraining inside `get_prediction_data`
(lines 1296–1312): `none` models `model.fit` raising.  `fitted i = some p`
models `date in fitted_values.index` for the `i`-th history month, and
`residStd` is `results.resid.std()`. -/
structure FinalFit where
  aic : ℚ
  pred : List ℚ
  confLower : List ℚ
  confUpper : List ℚ
  fitted : List (Option ℚ)
  residStd : ℚ
deriving DecidableEq, Repr

/-- Outcomes of every external numeric call of the pipeline.
`adf = none` models `adfuller` raising (the `except` of
`analyze_and_configure` then re-raises, line 1180); `seasonalAmp = none`
models `seasonal_decompose` raising (caught at line 1001, seasonality
stays undetected). -/
structure FitOracle where
  adf : Option ℚ
  seasonalAmp : Option ℚ
  sarima : Option ℚ
  arima : Option ℚ
  ar1 : Option ℚ
  ma1 : Option ℚ
  arma : Option ℚ
  hw : Option ℚ
  prophet : Option ℚ
  lstm : Option ℚ
  cnn : Option ℚ
  gru : Option ℚ
  rnn : Option ℚ
  sarimaxExog : Option ℚ
  var : Option ℚ
  varma : Option ℚ
  finalFit : Option FinalFit
deriving DecidableEq, Repr

/-- `is_stationary = p_adf <= 0.05` (line 988), defined when `adfuller`
returned a p-value. -/
def isStationary (p : ℚ) : Bool := decide (p ≤ 1 / 20)

/-- `total_amp = self.df['montant'].max() - self.df['montant'].min()`
(line 998). -/
def totalAmp (amounts : List ℚ) : ℚ :=
  match amounts.max?, amounts.min? with
  | some hi, some lo => hi - lo
  | _, _ => 0

/-- `has_seasonality` (lines 992–1004): requires at least 24 observations
and a successful decomposition with `season_amp > 0.1 * total_amp`. -/
def hasSeasonality (o : FitOracle) (amounts : List ℚ) : Bool :=
  if 24 ≤ amounts.length then
    match o.seasonalAmp with
    | some amp => decide (amp > (1 / 10) * totalAmp amounts)
    | none => false
  else false

/-- A candidate registered only when its score is finite
(`if score < float('inf')`, e.g. lines 1044–1045 for Prophet). -/
def optCandidate (name : String) : Option ℚ → List (String × Option ℚ)
  | some v => [(name, some v)]
  | none => []

/-- `model_scores` in insertion order (lines 1010–1111).  The
SARIMA/ARIMA/AR/MA/ARMA and HoltWinters entries are inserted
*unconditionally* — an infinite score is kept (lines 1016, 1021,
1028–1030, 1038); the remaining families are inserted only when finite. -/
def modelScores (o : FitOracle) (amounts : List ℚ) (p : ℚ) :
    List (String × Option ℚ) :=
  (if hasSeasonality o amounts ∧ 24 ≤ amounts.length then
    [("SARIMA(1,0,1)(1,1,1,12)", o.sarima)]
   else []) ++
  (if ¬ isStationary p then [("ARIMA(1,1,1)", o.arima)]
   else [("AR(1)", o.ar1), ("MA(1)", o.ma1), ("ARMA(1,1)", o.arma)]) ++
  [("HoltWinters", o.hw)] ++
  optCandidate "Prophet" o.prophet ++
  optCandidate "LSTM" o.lstm ++
  optCandidate "CNN" o.cnn ++
  optCandidate "GRU" o.gru ++
  optCandidate "RNN" o.rnn ++
  optCandidate "SARIMAX_EXOG" o.sarimaxExog ++
  optCandidate "VAR" o.var ++
  optCandidate "VARMA" o.varma

/-- `key=lambda x: x[1] if x[1] < float('inf') else float('inf')`
(line 1118): ascending on scores with infinity (`none`) last. -/
def scoreLe : Option ℚ → Option ℚ → Bool
  | some a, some b => decide (a ≤ b)
  | some _, none => true
  | none, some _ => false
  | none, none => true

/-- `sorted_models = sorted(model_scores.items(), key=...)` (line 1118):
CPython `sorted` is stable ascending. -/
def sortedModels (o : FitOracle) (amounts : List ℚ) (p : ℚ) :
    List (String × Option ℚ) :=
  stableSortBy (fun x y => scoreLe x.2 y.2) (modelScores o amounts p)

/-- `best_model_name, best_score = sorted_models[0] if sorted_models else
("SARIMAX_DEFAULT", float('inf'))` (line 1131). -/
def bestModel (o : FitOracle) (amounts : List ℚ) (p : ℚ) :
    String × Option ℚ :=
  (sortedModels o amounts p).headD ("SARIMAX_DEFAULT", none)

/-- `pat` is an initial segment of `s` (on character lists). -/
def listHasPfx : List Char → List Char → Bool
  | _, [] => true
  | [], _ :: _ => false
  | c :: cs, d :: ds => c == d && listHasPfx cs ds

/-- `pat` occurs as a contiguous sub-sequence of `s`. -/
def listContainsSub : List Char → List Char → Bool
  | s, pat =>
      listHasPfx s pat ||
        (match s with
         | [] => false
         | _ :: cs => listContainsSub cs pat)

/-- Python's `pat in s` substring test on strings. -/
def strContains (s pat : String) : Bool := listContainsSub s.data pat.data

/-- The model configuration fields `self.model_name`, `self.order`,
`self.seasonal_order`. -/
structure ModelConfig where
  name : String
  order : ℤ × ℤ × ℤ
  seasonal : ℤ × ℤ × ℤ × ℤ
deriving DecidableEq, Repr

/-- Constructor state (`logic.py`, lines 295–298). -/
def initialConfig : ModelConfig :=
  { name := "Inconnu", order := (0, 0, 0), seasonal := (0, 0, 0, 0) }

/-- The `if/elif` substring chain on the winner's name (lines 1135–1170);
a name matching no pattern leaves the constructor state unchanged. -/
def configFromBest (best : String) (c : ModelConfig) : ModelConfig :=
  if strContains best "SARIMA" then
    { name := "SARIMA", order := (1, 0, 1), seasonal := (1, 1, 1, 12) }
  else if strContains best "ARIMA" then
    { name := "ARIMA", order := (1, 1, 1), seasonal := (0, 0, 0, 0) }
  else if strContains best "AR(" then
    { name := "AR", order := (1, 0, 0), seasonal := (0, 0, 0, 0) }
  else if strContains best "MA(" then
    { name := "MA", order := (0, 0, 1), seasonal := (0, 0, 0, 0) }
  else if strContains best "ARMA" then
    { name := "ARMA", order := (1, 0, 1), seasonal := (0, 0, 0, 0) }
  else if strContains best "HoltWinters" then
    { name := "HoltWinters", order := (0, 0, 0), seasonal := (0, 0, 0, 0) }
  else if strContains best "Prophet" then
    { name := "Prophet", order := (0, 0, 0), seasonal := (0, 0, 0, 0) }
  else if strContains best "LSTM" then
    { name := "LSTM", order := (0, 0, 0), seasonal := (0, 0, 0, 0) }
  else if strContains best "CNN" then
    { name := "CNN", order := (0, 0, 0), seasonal := (0, 0, 0, 0) }
  else c

/-- `analyze_and_configure` (lines 959–1180).  Fails (the `except` logs and
then re-raises, line 1180) exactly when `adfuller` raised.  The per-stage
log lines are abbreviated to fixed tags — no claim depends on them
individually, only on the stage they belong to. -/
def analyze_and_configure (o : FitOracle) (amounts : List ℚ) :
    Except String (ModelConfig × List String) :=
  match o.adf with
  | none => .error "ERREUR lors de l analyse"
  | some p =>
      let cfg := configFromBest (bestModel o amounts p).1 initialConfig
      .ok (cfg,
        ["ETAPE 1 : DIAGNOSTIQUE DE LA SERIE", "Test ADF",
         "Saisonnalite", "ETAPE 2 : EVALUATION DE TOUS LES MODELES",
         "ETAPE 3 : CLASSEMENT & CHOIX DU MEILLEUR MODELE",
         "MEILLEUR MODELE CHOISI", "Configuration finale"])

/-! ## Forecast assembly (`SmartPredictor.get_prediction_data`)

Source: `logic.py`, lines 1182–1354.  The returned Python `dict` is the
structure below; a field holding `none` models a key that is *absent* from
the dictionary.  The formatted date strings and the timestamp are
presentation data and are elided; `historyValues` is the echo of the input
series. -/

/-- The structured result record crossing the module boundary. -/
structure PredResult where
  status : String
  modelName : Option String
  aic : Option ℚ
  explanations : List String
  historyValues : Option (List ℚ)
  forecastValues : Option (List ℚ)
  forecastLower : Option (List ℚ)
  forecastUpper : Option (List ℚ)
  anomalies : Option (List Anomaly)
  validatedMonths : Option ℤ
  durationReason : Option String
  errorMessage : Option String
deriving DecidableEq, Repr

/-- The error record of `get_prediction_data` (lines 1350–1354) and of
`predict_from_file_content` (lines 1639–1643): only `status`,
`error_message` and `explanations` are present. -/
def errorRecord (msg : String) (expl : List String) : PredResult :=
  { status := "error"
    modelName := none
    aic := none
    explanations := expl
    historyValues := none
    forecastValues := none
    forecastLower := none
    forecastUpper := none
    anomalies := none
    validatedMonths := none
    durationReason := none
    errorMessage := some msg }

/-- `get_prediction_data` (lines 1182–1354).  `logs0` is `self.logs` on
entry (the configuration-stage lines).  The degenerate-series guard
(`nunique() <= 1`, line 1266) precedes any call on `o.finalFit`; on an
empty frame its `iloc[-1]` raises `IndexError`, caught by the handler at
line 1347.  Note the naive branch's record carries **no** `anomalies`
key. -/
def get_prediction_data (o : FitOracle) (cfg : ModelConfig)
    (amounts : List ℚ) (logs0 : List String) (months : UserReq) :
    PredResult :=
  let dr := calculate_and_validate_duration (some amounts) months
  let reason := dr.reason.getD
    (match months with
     | .auto => "MODE AUTO"
     | _ => "USER OVERRIDE (requested -> validated)")
  let logs1 := logs0 ++ dr.logs ++
    ["Duree FINALE pour prediction : N mois",
     "=== GENERATION DE PREVISIONS ===",
     "Entrainement SARIMAX"]
  if amounts.dedup.length ≤ 1 then
    match amounts.getLast? with
    | none =>
        errorRecord "single positional indexer is out-of-bounds"
          (logs1 ++ ["ERREUR lors de la prediction"])
    | some last =>
        { status := "success"
          modelName := some "NAIVE_CONSTANT"
          aic := some 0
          explanations := logs1
          historyValues := some amounts
          forecastValues := some (List.replicate dr.final.toNat last)
          forecastLower := some (List.replicate dr.final.toNat last)
          forecastUpper := some (List.replicate dr.final.toNat last)
          anomalies := none
          validatedMonths := some dr.final
          durationReason := some reason
          errorMessage := none }
  else
    match o.finalFit with
    | none =>
        errorRecord "maximum likelihood optimization failed"
          (logs1 ++ ["ERREUR lors de la prediction"])
    | some ff =>
        { status := "success"
          modelName := some cfg.name
          aic := some ff.aic
          explanations := (logs1 ++ ["Modele entraine (AIC=N)"]) ++
            detectAnomaliesLogs amounts ff.fitted ff.residStd
          historyValues := some amounts
          forecastValues := some ff.pred
          forecastLower := some ff.confLower
          forecastUpper := some ff.confUpper
          anomalies := some (detect_anomalies amounts ff.fitted ff.residStd)
          validatedMonths := some dr.final
          durationReason := some reason
          errorMessage := none }

/-! ## Orchestrator (`predict_from_file_content`)

Source: `logic.py`, lines 1506–1643.  The CSV cleaning stage
(`DataCleaner.run`, a declared non-goal of the core) enters the embedding
as its outcome: `.ok (cleanerLogs, amounts)` or `.error (msg, logsAtRaise)`
where `logsAtRaise` are the lines the cleaner had accumulated when it
raised. -/

/-- `predict_from_file_content`.  Key control points:
* line 1624: `all_logs = cleaner.logs + predictor.logs` snapshots the log
  *before* step 3 (`get_prediction_data`) runs;
* line 1633: `result["explanations"] = all_logs` overwrites the record's
  explanations with that snapshot, on success and error records alike;
* lines 1637–1643: any exception from cleaning or configuration yields
  `{"status": "error", "error_message": str(e), "explanations": []}` —
  the logs accumulated before the failure are discarded. -/
def predict_from_file_content
    (clean : Except (String × List String) (List String × List ℚ))
    (o : FitOracle) (months : UserReq) : PredResult :=
  match clean with
  | .error (msg, _) => errorRecord msg []
  | .ok (cleanerLogs, amounts) =>
      match analyze_and_configure o amounts with
      | .error msg => errorRecord msg []
      | .ok (cfg, logsA) =>
          let all_logs := cleanerLogs ++ logsA
          let result := get_prediction_data o cfg amounts logsA months
          { result with explanations := all_logs }

/-! ## Concrete scenarios used by the claim theorems -/

/-- Every fitter's score is infinite (`float('inf')`): each candidate fit
failed or its back end is unavailable. -/
def allScoresFailed (o : FitOracle) : Prop :=
  o.sarima = none ∧ o.arima = none ∧ o.ar1 = none ∧ o.ma1 = none ∧
  o.arma = none ∧ o.hw = none ∧ o.prophet = none ∧ o.lstm = none ∧
  o.cnn = none ∧ o.gru = none ∧ o.rnn = none ∧ o.sarimaxExog = none ∧
  o.var = none ∧ o.varma = none

instance : DecidablePred allScoresFailed := fun o => by
  unfold allScoresFailed
  infer_instance

/-- The candidate names inserted into `model_scores` even when their score
is infinite (lines 1016, 1021, 1028–1030, 1038). -/
def alwaysRegisteredNames : List String :=
  ["SARIMA(1,0,1)(1,1,1,12)", "ARIMA(1,1,1)", "AR(1)", "MA(1)",
   "ARMA(1,1)", "HoltWinters"]

/-- A benign oracle: non-stationary series (`p = 1/2`), no seasonality
information, ARIMA and Holt-Winters fit with finite scores, and the final
SARIMAX retraining succeeds with zero residuals. -/
def oracleBasic : FitOracle :=
  { adf := some (1 / 2)
    seasonalAmp := none
    sarima := none
    arima := some 100
    ar1 := none
    ma1 := none
    arma := none
    hw := some 200
    prophet := none
    lstm := none
    cnn := none
    gru := none
    rnn := none
    sarimaxExog := none
    var := none
    varma := none
    finalFit := some
      { aic := 100
        pred := [1]
        confLower := [0]
        confUpper := [2]
        fitted := [some 1, some 2, some 3, some 4]
        residStd := 1 } }

/-- An oracle on which every candidate fit fails and the final SARIMAX
retraining raises as well. -/
def oracleAllFail : FitOracle :=
  { adf := some (1 / 2)
    seasonalAmp := none
    sarima := none
    arima := none
    ar1 := none
    ma1 := none
    arma := none
    hw := none
    prophet := none
    lstm := none
    cnn := none
    gru := none
    rnn := none
    sarimaxExog := none
    var := none
    varma := none
    finalFit := none }

/-! ## Helper lemmas -/

theorem mem_insertSorted (le : α → α → Bool) (a x : α) (l : List α) :
    x ∈ insertSorted le a l ↔ x = a ∨ x ∈ l := by
  induction l with
  | nil => simp [insertSorted]
  | cons b l ih =>
      simp only [insertSorted]
      by_cases h : le a b
      · simp [h]
      · simp only [h, Bool.false_eq_true, if_false, List.mem_cons, ih]
        tauto

theorem mem_stableSortBy (le : α → α → Bool) (x : α) (l : List α) :
    x ∈ stableSortBy le l ↔ x ∈ l := by
  induction l with
  | nil => simp [stableSortBy]
  | cons a l ih => simp [stableSortBy, mem_insertSorted, ih]

theorem stableSortBy_ne_nil (le : α → α → Bool) (l : List α) (h : l ≠ []) :
    stableSortBy le l ≠ [] := by
  cases l with
  | nil => exact absurd rfl h
  | cons a l =>
      simp only [stableSortBy]
      intro hnil
      have ha : a ∈ insertSorted le a (stableSortBy le l) :=
        (mem_insertSorted le a a _).2 (Or.inl rfl)
      rw [hnil] at ha
      exact List.not_mem_nil a ha

theorem safeDuration_bounds (amounts : List ℚ) :
    3 ≤ safeDuration amounts ∧ safeDuration amounts ≤ 24 :=
  ⟨le_max_left _ _, max_le (by norm_num) (min_le_right _ _)⟩

theorem anomalyAt_not_low (s : ℚ) (d : Nat) (a p : ℚ) (rec : Anomaly)
    (h : anomalyAt s d a p = some rec) : rec.severity ≠ Severity.low := by
  simp only [anomalyAt] at h
  by_cases hemit : |a - p| / s ≥ 2 * s / s
  · rw [if_pos hemit] at h
    cases h
    dsimp only
    split_ifs with h3
    · simp
    · simp
  · rw [if_neg hemit] at h
    cases h

theorem detect_anomalies_not_low (actuals : List ℚ)
    (fitted : List (Option ℚ)) (s : ℚ) (rec : Anomaly)
    (h : rec ∈ detect_anomalies actuals fitted s) :
    rec.severity ≠ Severity.low := by
  simp only [detect_anomalies] at h
  split_ifs at h with hs
  · exact absurd h (List.not_mem_nil rec)
  · rw [sortAnomalies, mem_stableSortBy, List.mem_filterMap] at h
    obtain ⟨⟨i, a, f⟩, _, hf⟩ := h
    cases f with
    | none => cases hf
    | some pr => exact anomalyAt_not_low s i a pr rec hf

theorem modelScores_allFail (o : FitOracle) (amounts : List ℚ) (p : ℚ)
    (hf : allScoresFailed o) :
    ∀ x ∈ modelScores o amounts p, x.2 = none ∧ x.1 ∈ alwaysRegisteredNames := by
  obtain ⟨h1, h2, h3, h4, h5, h6, h7, h8, h9, h10, h11, h12, h13, h14⟩ := hf
  intro x hx
  simp only [modelScores, h1, h2, h3, h4, h5, h6, h7, h8, h9, h10, h11, h12,
    h13, h14, optCandidate, List.append_nil, List.mem_append] at hx
  rcases hx with (hx | hx) | hx
  · split_ifs at hx
    · simp only [List.mem_singleton] at hx
      subst hx
      exact ⟨rfl, by decide⟩
    · exact absurd hx (List.not_mem_nil x)
  · split_ifs at hx <;>
      simp only [List.mem_cons, List.mem_singleton, List.not_mem_nil,
        or_false] at hx
    · rcases hx with hx | hx | hx <;> subst hx <;> exact ⟨rfl, by decide⟩
    · subst hx
      exact ⟨rfl, by decide⟩
  · simp only [List.mem_singleton] at hx
    subst hx
    exact ⟨rfl, by decide⟩

/-! ## Claim theorems -/

/-- C1 (refuting evaluation): on a history with residual standard deviation
1 and residuals 3.5 (High), 2.5 (Medium) and 0 (Low, not emitted),
`_detect_anomalies` returns the Medium record *before* the High one: the
`reverse=True` sort at line 1496 inverts the severity-rank component of the
key (`HIGH = 0 < MEDIUM = 1`), contradicting the claimed High-first order
(and the source's own comment at line 1494). -/
theorem detect_anomalies_medium_before_high :
    (detect_anomalies [7 / 2, 5 / 2, 0] [some 0, some 0, some 0] 1).map
        Anomaly.severity = [Severity.medium, Severity.high] := by
  with_unfolding_all decide

/-- C7: for residual standard deviation `s > 0`, the per-point classifier of
`_detect_anomalies` emits a record iff `|residual| / s ≥ 2`; an emitted
record is High iff `|residual| / s ≥ 3` and Medium iff
`2 ≤ |residual| / s < 3` (both thresholds inclusive), and a Low point is
never emitted by the detector. -/
theorem anomaly_severity_thresholds (d : Nat) (a p s : ℚ) (hs : 0 < s) :
    (anomalyAt s d a p = none ↔ |a - p| / s < 2) ∧
    (∀ rec : Anomaly, anomalyAt s d a p = some rec →
      ((rec.severity = Severity.high ↔ 3 ≤ |a - p| / s) ∧
       (rec.severity = Severity.medium ↔
          2 ≤ |a - p| / s ∧ |a - p| / s < 3) ∧
       rec.severity ≠ Severity.low)) ∧
    (∀ (actuals : List ℚ) (fitted : List (Option ℚ)) (rec : Anomaly),
      rec ∈ detect_anomalies actuals fitted s →
        rec.severity ≠ Severity.low) := by
  have hs0 : s ≠ 0 := ne_of_gt hs
  have h3 : (3 * s) / s = 3 := mul_div_cancel_right₀ 3 hs0
  have h2 : (2 * s) / s = 2 := mul_div_cancel_right₀ 2 hs0
  refine ⟨?_, ?_, ?_⟩
  · simp only [anomalyAt, h2]
    by_cases hemit : |a - p| / s ≥ 2
    · simp [hemit, not_lt.2 hemit]
    · simp [hemit, lt_of_not_le hemit]
  · intro rec hrec
    simp only [anomalyAt, h2, h3] at hrec
    by_cases hemit : |a - p| / s ≥ 2
    · rw [if_pos hemit] at hrec
      cases hrec
      dsimp only
      by_cases hhi : |a - p| / s ≥ 3
      · simp [hhi, not_lt.2 hhi, ge_iff_le.1 hhi]
      · simp [hhi, hemit, lt_of_not_le hhi]
    · rw [if_neg hemit] at hrec
      cases hrec
  · intro actuals fitted rec hrec
    exact detect_anomalies_not_low actuals fitted s rec hrec

/-- C7 witness: the thresholds theorem instantiated at `d = 0`, `a = 5`,
`p = 0`, `s = 1`. -/
theorem anomaly_severity_thresholds_witness :
    (0 : ℚ) < 1 ∧
    ((anomalyAt 1 0 5 0 = none ↔ |5 - (0 : ℚ)| / 1 < 2) ∧
     (∀ rec : Anomaly, anomalyAt 1 0 5 0 = some rec →
       ((rec.severity = Severity.high ↔ 3 ≤ |5 - (0 : ℚ)| / 1) ∧
        (rec.severity = Severity.medium ↔
           2 ≤ |5 - (0 : ℚ)| / 1 ∧ |5 - (0 : ℚ)| / 1 < 3) ∧
        rec.severity ≠ Severity.low)) ∧
     (∀ (actuals : List ℚ) (fitted : List (Option ℚ)) (rec : Anomaly),
       rec ∈ detect_anomalies actuals fitted 1 →
         rec.severity ≠ Severity.low)) :=
  ⟨by norm_num, anomaly_severity_thresholds 0 5 0 1 (by norm_num)⟩

/-- C9: a `user_months` on which `int(...)` raises is recovered, never
fatal: the validator returns the clamped safe duration, records the
rejection reason, and logs the rejection line (the embedding is a total
function, matching the source where the inner `try` at lines 923–928
catches the conversion error). -/
theorem invalid_request_recovered (amounts : List ℚ) :
    (calculate_and_validate_duration (some amounts) UserReq.invalid).final =
      safeDuration amounts ∧
    invalidRequestLog ∈
      (calculate_and_validate_duration (some amounts) UserReq.invalid).logs ∧
    (calculate_and_validate_duration (some amounts) UserReq.invalid).reason =
      some "INVALID USER REQUEST" := by
  refine ⟨rfl, ?_, rfl⟩
  simp [calculate_and_validate_duration, durationCore]

/-- C10: on a predictor state where the body of
`calculate_and_validate_duration` raises (modelled by a frame without its
`montant` column), the handler at lines 954–957 returns the constant 12,
logs the error, and leaves `_last_duration_reason` unset — it neither
propagates the exception nor returns the clamped safe value. -/
theorem duration_exception_returns_12 (user : UserReq) :
    (calculate_and_validate_duration none user).final = 12 ∧
    (calculate_and_validate_duration none user).reason = none ∧
    "Erreur lors de calculate_and_validate_duration" ∈
      (calculate_and_validate_duration none user).logs := by
  refine ⟨rfl, rfl, ?_⟩
  simp [calculate_and_validate_duration, durationHeaderLogs]

/-- C2 counterexample: on twelve all-positive months (`safe = 4`) a
boundary-accepted request of 1 month takes the user-within-safe branch
(line 931), so the validator returns 1 — outside `[3, 24]` and not produced
by the user-override-accepted branch. -/
theorem duration_request_one_escapes_range :
    (calculate_and_validate_duration (some (List.replicate 12 (1 : ℚ)))
        (UserReq.num 1)).final = 1 ∧
    ¬(3 ≤ (calculate_and_validate_duration (some (List.replicate 12 (1 : ℚ)))
        (UserReq.num 1)).final) ∧
    (calculate_and_validate_duration (some (List.replicate 12 (1 : ℚ)))
        (UserReq.num 1)).reason = some "USER OVERRIDE (requested <= safe)" := by
  with_unfolding_all decide

/-- C2 amended: for every series and boundary-accepted request
(`Query(ge=1, le=60)`), the validator's result is strictly positive, and it
lies in `[3, 24]` unless it equals a caller request accepted either by the
user-within-safe branch (`requested ≤ safe`, line 931) or by the
user-override-accepted branch (`requested ≤ 24` and
`requested ≤ total_months`, line 939). -/
theorem duration_final_range (amounts : List ℚ) (user : UserReq)
    (h : boundaryAccepted user) :
    0 < (calculate_and_validate_duration (some amounts) user).final ∧
    ((3 ≤ (calculate_and_validate_duration (some amounts) user).final ∧
        (calculate_and_validate_duration (some amounts) user).final ≤ 24) ∨
      ∃ n : ℤ, user = UserReq.num n ∧
        (calculate_and_validate_duration (some amounts) user).final = n ∧
        (n ≤ safeDuration amounts ∨
          (n ≤ 24 ∧ n ≤ (totalMonths amounts : ℤ)))) := by
  obtain ⟨h3, h24⟩ := safeDuration_bounds amounts
  cases user with
  | auto =>
      have e : (calculate_and_validate_duration (some amounts)
          UserReq.auto).final = safeDuration amounts := rfl
      rw [e]
      exact ⟨by omega, Or.inl ⟨h3, h24⟩⟩
  | invalid =>
      have e : (calculate_and_validate_duration (some amounts)
          UserReq.invalid).final = safeDuration amounts := rfl
      rw [e]
      exact ⟨by omega, Or.inl ⟨h3, h24⟩⟩
  | num n =>
      obtain ⟨hn1, hn60⟩ := h
      by_cases hsafe : n ≤ safeDuration amounts
      · have e : (calculate_and_validate_duration (some amounts)
            (UserReq.num n)).final = n := by
          simp [calculate_and_validate_duration, durationCore, hsafe]
        rw [e]
        exact ⟨by omega, Or.inr ⟨n, rfl, rfl, Or.inl hsafe⟩⟩
      · by_cases hok : n ≤ 24 ∧ n ≤ (totalMonths amounts : ℤ)
        · have e : (calculate_and_validate_duration (some amounts)
              (UserReq.num n)).final = n := by
            simp [calculate_and_validate_duration, durationCore, hsafe, hok]
          rw [e]
          exact ⟨by omega, Or.inr ⟨n, rfl, rfl, Or.inr hok⟩⟩
        · have e : (calculate_and_validate_duration (some amounts)
              (UserReq.num n)).final = safeDuration amounts := by
            simp [calculate_and_validate_duration, durationCore, hsafe, hok]
          rw [e]
          exact ⟨by omega, Or.inl ⟨h3, h24⟩⟩

/-- C2 witness: three active months (`safe = 3`), request 2 accepted by the
user-within-safe branch. -/
theorem duration_final_range_witness :
    boundaryAccepted (UserReq.num 2) ∧
    (0 < (calculate_and_validate_duration (some [(1 : ℚ), 1, 1])
        (UserReq.num 2)).final ∧
     ((3 ≤ (calculate_and_validate_duration (some [(1 : ℚ), 1, 1])
          (UserReq.num 2)).final ∧
        (calculate_and_validate_duration (some [(1 : ℚ), 1, 1])
          (UserReq.num 2)).final ≤ 24) ∨
      ∃ n : ℤ, UserReq.num 2 = UserReq.num n ∧
        (calculate_and_validate_duration (some [(1 : ℚ), 1, 1])
          (UserReq.num 2)).final = n ∧
        (n ≤ safeDuration [(1 : ℚ), 1, 1] ∨
          (n ≤ 24 ∧ n ≤ (totalMonths [(1 : ℚ), 1, 1] : ℤ))))) :=
  ⟨by decide, duration_final_range [(1 : ℚ), 1, 1] (UserReq.num 2) (by decide)⟩

/-- C8: the validator computes `safe = clamp(floor(active/3), 3, 24)` over
the strictly-positive month count, warns on density below 20 percent
regardless of branch, and realizes the three spec scenarios: 12 dense
months → 4; 72 months with 2 active → 3 with the sparsity warning; the
same sparse series with request 36 → reduced to 3. -/
theorem duration_branch_scenarios :
    (∀ amounts : List ℚ,
        (calculate_and_validate_duration (some amounts) UserReq.auto).final =
          max 3 (min (Int.ofNat (activeMonths amounts / 3)) 24)) ∧
    (∀ (amounts : List ℚ) (user : UserReq), dataDensity amounts < 20 →
        sparsityWarningLog ∈
          (calculate_and_validate_duration (some amounts) user).logs) ∧
    ((calculate_and_validate_duration (some (List.replicate 12 (1 : ℚ)))
        UserReq.auto).final = 4 ∧
      (calculate_and_validate_duration (some (List.replicate 12 (1 : ℚ)))
        UserReq.auto).reason = some "MODE AUTO") ∧
    ((calculate_and_validate_duration (some sparse72) UserReq.auto).final = 3 ∧
      sparsityWarningLog ∈
        (calculate_and_validate_duration (some sparse72) UserReq.auto).logs) ∧
    ((calculate_and_validate_duration (some sparse72) (UserReq.num 36)).final = 3 ∧
      (calculate_and_validate_duration (some sparse72) (UserReq.num 36)).reason =
        some "USER REQUEST REDUCED") := by
  refine ⟨fun amounts => rfl, ?_, ?_, ?_, ?_⟩
  · intro amounts user h
    cases user <;>
      simp only [calculate_and_validate_duration, durationCore] <;>
      split_ifs <;>
      simp_all
  · with_unfolding_all decide
  · with_unfolding_all decide
  · with_unfolding_all decide

/-- C8 witness: the sparsity-warning clause instantiated on the sparse
72-month series with a non-numeric request. -/
theorem duration_branch_scenarios_witness :
    dataDensity sparse72 < 20 ∧
    sparsityWarningLog ∈
      (calculate_and_validate_duration (some sparse72) UserReq.invalid).logs :=
  ⟨by with_unfolding_all decide,
    duration_branch_scenarios.2.1 sparse72 UserReq.invalid
      (by with_unfolding_all decide)⟩

/-- C3 (refuting evaluation): a successful pipeline run whose returned
`explanations` contain no line from duration validation — line 1624
snapshots `cleaner.logs + predictor.logs` *before* `get_prediction_data`
runs, and line 1633 overwrites the record's explanations with that
snapshot.  The third conjunct shows the duration-validation header *was*
appended to the predictor's log during step 3 (it is in the record
`get_prediction_data` built), so the overwrite is what loses it. -/
theorem pipeline_explanations_missing_duration_lines :
    (predict_from_file_content
        (Except.ok (["Donnees pretes"], [(1 : ℚ), 2, 3, 4])) oracleBasic
        UserReq.auto).status = "success" ∧
    "ANALYSE DE LA DENSITE DES DONNEES (Smart Duration)" ∉
      (predict_from_file_content
        (Except.ok (["Donnees pretes"], [(1 : ℚ), 2, 3, 4])) oracleBasic
        UserReq.auto).explanations ∧
    "ANALYSE DE LA DENSITE DES DONNEES (Smart Duration)" ∈
      (get_prediction_data oracleBasic
        (configFromBest (bestModel oracleBasic [(1 : ℚ), 2, 3, 4] (1 / 2)).1
          initialConfig)
        [(1 : ℚ), 2, 3, 4] [] UserReq.auto).explanations := by
  with_unfolding_all decide

/-- C4 counterexample: a non-empty, non-constant cleaned series on which
every candidate fit fails (and hence the final SARIMAX refit of the
infinite-scored winner fails too) yields `status = "error"`, not a success
record with a naive fallback. -/
theorem all_candidates_failed_pipeline_error :
    (predict_from_file_content (Except.ok ([], [(0 : ℚ), 1, 2, 3]))
        oracleAllFail UserReq.auto).status = "error" ∧
    (predict_from_file_content (Except.ok ([], [(0 : ℚ), 1, 2, 3]))
        oracleAllFail UserReq.auto).modelName = none := by
  with_unfolding_all decide

/-- C4 amended: when every candidate fit fails, the always-registered
candidates (ARIMA-family, Holt-Winters) stay in `model_scores` with an
infinite score, so the winner is one of them — with an infinite score and
not a designated naive fallback — and if the final refit fails as well on
a non-constant series, the pipeline returns a `status = "error"` record,
not success. -/
theorem all_candidates_failed_selection (o : FitOracle) (amounts : List ℚ)
    (p : ℚ) (hf : allScoresFailed o) :
    (bestModel o amounts p).2 = none ∧
    (bestModel o amounts p).1 ∈ alwaysRegisteredNames ∧
    (bestModel o amounts p).1 ≠ "NAIVE_CONSTANT" ∧
    (o.adf = some p → o.finalFit = none → ¬ amounts.dedup.length ≤ 1 →
      ∀ (cleanerLogs : List String) (months : UserReq),
        (predict_from_file_content (Except.ok (cleanerLogs, amounts)) o
            months).status = "error") := by
  have hmem := modelScores_allFail o amounts p hf
  have hne : modelScores o amounts p ≠ [] := by
    intro hnil
    have hhw : ("HoltWinters", o.hw) ∈ modelScores o amounts p := by
      simp [modelScores, List.mem_append]
    rw [hnil] at hhw
    exact List.not_mem_nil _ hhw
  have hpipe : o.adf = some p → o.finalFit = none →
      ¬ amounts.dedup.length ≤ 1 →
      ∀ (cleanerLogs : List String) (months : UserReq),
        (predict_from_file_content (Except.ok (cleanerLogs, amounts)) o
            months).status = "error" := by
    intro hadf hfit hconst cleanerLogs months
    simp only [predict_from_file_content, analyze_and_configure, hadf,
      get_prediction_data, if_neg hconst, hfit, errorRecord]
  cases hsorted : sortedModels o amounts p with
  | nil =>
      have hne2 : sortedModels o amounts p ≠ [] := by
        unfold sortedModels
        exact stableSortBy_ne_nil _ _ hne
      exact absurd hsorted hne2
  | cons b t =>
      have hb : b ∈ modelScores o amounts p := by
        have hbs : b ∈ sortedModels o amounts p := by
          rw [hsorted]
          exact List.mem_cons_self b t
        unfold sortedModels at hbs
        rwa [mem_stableSortBy] at hbs
      have hbest : bestModel o amounts p = b := by
        unfold bestModel
        rw [hsorted]
        rfl
      obtain ⟨hb2, hb1⟩ := hmem b hb
      refine ⟨by rw [hbest]; exact hb2, by rw [hbest]; exact hb1, ?_, hpipe⟩
      rw [hbest]
      intro heq
      rw [heq] at hb1
      exact absurd hb1 (by decide)

/-- C4 witness: the all-failed selection theorem instantiated on the
all-failing oracle and a three-month non-constant series. -/
theorem all_candidates_failed_selection_witness :
    allScoresFailed oracleAllFail ∧
    ((bestModel oracleAllFail [(0 : ℚ), 1, 2] (1 / 2)).2 = none ∧
     (bestModel oracleAllFail [(0 : ℚ), 1, 2] (1 / 2)).1 ∈
        alwaysRegisteredNames ∧
     (bestModel oracleAllFail [(0 : ℚ), 1, 2] (1 / 2)).1 ≠ "NAIVE_CONSTANT" ∧
     (oracleAllFail.adf = some (1 / 2) → oracleAllFail.finalFit = none →
       ¬ ([(0 : ℚ), 1, 2].dedup.length ≤ 1) →
       ∀ (cleanerLogs : List String) (months : UserReq),
         (predict_from_file_content
             (Except.ok (cleanerLogs, [(0 : ℚ), 1, 2])) oracleAllFail
             months).status = "error")) :=
  ⟨by with_unfolding_all decide,
    all_candidates_failed_selection oracleAllFail [(0 : ℚ), 1, 2] (1 / 2)
      (by with_unfolding_all decide)⟩

/-- C5 counterexample: a cleaner failure ("empty file") with a non-empty
log accumulated before the raise still yields `explanations = []` — the
outer handler (lines 1639–1643) discards the accumulated lines. -/
theorem cleaner_failure_discards_logs :
    (predict_from_file_content
        (Except.error ("Fichier vide", ["Lecture du fichier"])) oracleBasic
        UserReq.auto).status = "error" ∧
    (predict_from_file_content
        (Except.error ("Fichier vide", ["Lecture du fichier"])) oracleBasic
        UserReq.auto).explanations = [] ∧
    ["Lecture du fichier"] ≠ ([] : List String) := by
  with_unfolding_all decide

/-- C5 amended: a fatal cleaning failure (e.g. empty or unparseable file)
yields a structured record — `status = "error"`, a descriptive
`error_message`, an `explanations` key — and never a raised exception
(the embedding is a total function); but `explanations` is the empty
list: the log accumulated before the failure is discarded. -/
theorem fatal_error_structured_record (msg : String) (lost : List String)
    (o : FitOracle) (months : UserReq) :
    predict_from_file_content (Except.error (msg, lost)) o months =
      errorRecord msg [] ∧
    (predict_from_file_content (Except.error (msg, lost)) o
        months).status = "error" ∧
    (predict_from_file_content (Except.error (msg, lost)) o
        months).errorMessage = some msg ∧
    (predict_from_file_content (Except.error (msg, lost)) o
        months).explanations = [] :=
  ⟨rfl, rfl, rfl, rfl⟩

/-- C6 counterexample: on the 24-month constant series the naive success
record carries *no* `anomalies` key at all (lines 1269–1294 build the
dictionary without one), rather than an empty anomaly list. -/
theorem constant_series_anomalies_key_absent :
    (get_prediction_data oracleBasic initialConfig
        (List.replicate 24 (5 : ℚ)) [] UserReq.auto).anomalies = none ∧
    (get_prediction_data oracleBasic initialConfig
        (List.replicate 24 (5 : ℚ)) [] UserReq.auto).anomalies ≠ some [] := by
  with_unfolding_all decide

/-- C6 amended: for every series with a single distinct value,
`get_prediction_data` skips model fitting (the result is unchanged when
the final-fit outcome is removed from the oracle) and returns a success
record whose point, lower and upper forecasts all equal the last observed
amount at every horizon step and whose model name is `NAIVE_CONSTANT`;
the record carries no `anomalies` key (instead of an empty list). -/
theorem constant_series_naive_forecast (o : FitOracle) (cfg : ModelConfig)
    (amounts : List ℚ) (logs0 : List String) (months : UserReq) (last : ℚ)
    (hlast : amounts.getLast? = some last)
    (hconst : amounts.dedup.length ≤ 1) :
    (get_prediction_data o cfg amounts logs0 months).status = "success" ∧
    (get_prediction_data o cfg amounts logs0 months).modelName =
      some "NAIVE_CONSTANT" ∧
    (∃ vals : List ℚ,
      (get_prediction_data o cfg amounts logs0 months).forecastValues =
        some vals ∧
      (get_prediction_data o cfg amounts logs0 months).forecastLower =
        some vals ∧
      (get_prediction_data o cfg amounts logs0 months).forecastUpper =
        some vals ∧
      ∀ v ∈ vals, v = last) ∧
    (get_prediction_data o cfg amounts logs0 months).anomalies = none ∧
    get_prediction_data o cfg amounts logs0 months =
      get_prediction_data { o with finalFit := none } cfg amounts logs0
        months := by
  simp only [get_prediction_data, if_pos hconst, hlast]
  refine ⟨?_, ?_, ⟨List.replicate
      ((calculate_and_validate_duration (some amounts) months).final).toNat
      last, ?_, ?_, ?_, fun v hv => List.eq_of_mem_replicate hv⟩, ?_, ?_⟩ <;>
    trivial

/-- C6 witness: the naive-forecast theorem instantiated on a 24-month
constant series with the all-failing oracle — the record is a success even
though no model can be fit. -/
theorem constant_series_naive_forecast_witness :
    (List.replicate 24 (5 : ℚ)).getLast? = some 5 ∧
    (List.replicate 24 (5 : ℚ)).dedup.length ≤ 1 ∧
    ((get_prediction_data oracleAllFail initialConfig
        (List.replicate 24 (5 : ℚ)) [] UserReq.auto).status = "success" ∧
     (get_prediction_data oracleAllFail initialConfig
        (List.replicate 24 (5 : ℚ)) [] UserReq.auto).modelName =
       some "NAIVE_CONSTANT" ∧
     (∃ vals : List ℚ,
       (get_prediction_data oracleAllFail initialConfig
          (List.replicate 24 (5 : ℚ)) [] UserReq.auto).forecastValues =
         some vals ∧
       (get_prediction_data oracleAllFail initialConfig
          (List.replicate 24 (5 : ℚ)) [] UserReq.auto).forecastLower =
         some vals ∧
       (get_prediction_data oracleAllFail initialConfig
          (List.replicate 24 (5 : ℚ)) [] UserReq.auto).forecastUpper =
         some vals ∧
       ∀ v ∈ vals, v = 5) ∧
     (get_prediction_data oracleAllFail initialConfig
        (List.replicate 24 (5 : ℚ)) [] UserReq.auto).anomalies = none ∧
     get_prediction_data oracleAllFail initialConfig
        (List.replicate 24 (5 : ℚ)) [] UserReq.auto =
       get_prediction_data { oracleAllFail with finalFit := none }
         initialConfig (List.replicate 24 (5 : ℚ)) [] UserReq.auto) :=
  ⟨by decide, by decide,
    constant_series_naive_forecast oracleAllFail initialConfig
      (List.replicate 24 (5 : ℚ)) [] UserReq.auto 5 (by decide) (by decide)⟩

end AutoPredictionTGR
